import Mathlib

/-!
Shallow embedding of the nhl-stats-tracker ingestion pipeline
(src/data_manager.py, src/nhl_api_client.py, src/models.py, src/database.py).

Conventions of the embedding:
* Python dynamic scalar values that flow into natural-key columns are
  modelled by `PyVal` (None / int / str).
* JSON dictionaries are modelled by structures whose fields are `Option`s;
  a key that is absent (or present with value `null`) is `none`.
* Python floats (durations, `pointPctg`) are modelled as rationals; no
  claim depends on floating-point rounding.
* `datetime.utcnow()` / `datetime.now()` timestamps are abstract `Nat`
  ticks supplied as a parameter `now`; the computed duration of an
  operation is the parameter `dur`.
* `database.py` builds sessions from a `scoped_session`, so the nested
  `_log_fetch` call inside a fetch method joins the same thread-local
  transaction as the surrounding `with db.get_session()` scope: one fetch
  method is one transaction.  A persistence failure anywhere inside that
  scope (`Fault.raise`) rolls back every entity change of the operation
  and is caught by the fetch method, which then records an error ledger
  row in a fresh transaction and returns `False`
  (`Database.get_session` commit / rollback / re-raise semantics plus the
  `except Exception` blocks of `DataManager`).
* The fault parameter models a persistence failure in the upsert loop or
  at commit; it is only consulted once the session scope with a resolved
  team row is reached, because the missing-precondition early return
  happens at the first query of the scope.
-/

/-- Python-like dynamic scalar value (None, int, or str). -/
inductive PyVal where
  | vnone : PyVal
  | vint : Int → PyVal
  | vstr : String → PyVal
deriving DecidableEq, Repr

/-- Python truthiness of a `PyVal` (`None`, `0` and `""` are falsy). -/
def pyTruthy : PyVal → Bool
  | .vnone => false
  | .vint n => n != 0
  | .vstr s => s != ""

/-- Python `a or b` for an optional string `a` (absent or empty is falsy). -/
def pyOrS : Option String → String → String
  | some s, b => if s = "" then b else s
  | none, b => b

/-- Injected persistence failure for one datastore session scope:
`ok` means the transaction commits, `raise msg` means an exception with
message `msg` (the Python `str(e)`) aborts the scope and rolls it back. -/
inductive Fault where
  | ok : Fault
  | raise : String → Fault
deriving DecidableEq, Repr

/-- Row of the `teams` table (models.Team).  `rid` is the surrogate
primary key `id`; `nhl_id` is the natural key. -/
structure TeamRow where
  rid : Nat
  nhl_id : PyVal
  name : String
  abbreviation : String
  city : String
  active : Bool
  created_at : Nat
  updated_at : Nat
deriving DecidableEq, Repr

/-- Row of the `players` table (models.Player). -/
structure PlayerRow where
  rid : Nat
  nhl_id : PyVal
  first_name : String
  last_name : String
  jersey_number : Option Int
  position : Option String
  shoots_catches : Option String
  height_inches : Option Int
  weight_pounds : Option Int
  birth_year : Option Nat
  birth_month : Option Nat
  birth_day : Option Nat
  birth_city : String
  birth_country : Option String
  team_id : Nat
  active : Bool
  created_at : Nat
  updated_at : Nat
deriving DecidableEq, Repr

/-- Row of the `team_stats` table (models.TeamStats). -/
structure TeamStatsRow where
  rid : Nat
  team_id : Nat
  season : String
  games_played : Int
  wins : Int
  losses : Int
  overtime_losses : Int
  points : Int
  point_percentage : Rat
  goals_for : Int
  goals_against : Int
  goal_differential : Int
  created_at : Nat
  updated_at : Nat
deriving DecidableEq, Repr

/-- Row of the `data_fetch_logs` table (models.DataFetchLog). -/
structure LogRow where
  fetch_type : String
  fetch_date : Nat
  status : String
  records_fetched : Int
  error_message : Option String
  duration_seconds : Option Rat
deriving DecidableEq, Repr

/-- The datastore state touched by the pipeline. -/
structure DMState where
  teams : List TeamRow
  players : List PlayerRow
  team_stats : List TeamStatsRow
  logs : List LogRow
deriving DecidableEq, Repr

/-- DataManager._log_fetch: append one DataFetchLog row. -/
def _log_fetch (st : DMState) (fetch_type status : String) (records : Int)
    (error : Option String) (duration : Option Rat) (now : Nat) : DMState :=
  { st with logs := st.logs ++ [⟨fetch_type, now, status, records, error, duration⟩] }

/-- One incoming teams record as read by `fetch_and_store_teams`
(keys `id`, `name`, `fullName`, `abbreviation`, `triCode`, `venue.city`,
`active`).  `venueCity` is `some c` exactly when the record has a truthy
`venue` dict carrying key `city`. -/
structure TeamData where
  id : PyVal
  name : Option String
  fullName : Option String
  abbreviation : Option String
  triCode : Option String
  venueCity : Option String
  active : Option Bool
deriving DecidableEq, Repr

/-- `team_name = team_data.get('name') or team_data.get('fullName', '')`. -/
def teamNameOf (td : TeamData) : String := pyOrS td.name (td.fullName.getD "")

/-- `team_abbr = team_data.get('abbreviation') or team_data.get('triCode', '')`. -/
def teamAbbrOf (td : TeamData) : String := pyOrS td.abbreviation (td.triCode.getD "")

/-- `team_city = venue.get('city', '') if venue else ''`. -/
def teamCityOf (td : TeamData) : String := td.venueCity.getD ""

/-- Next surrogate primary key for an autoincrement table. -/
def nextRid (rids : List Nat) : Nat := rids.foldr max 0 + 1

/-- The in-place update branch of the teams upsert: overwrite `name`,
`abbreviation`, `city` and refresh `updated_at` (lines 59-64 of
data_manager.py; note that `active` is not touched here). -/
def updateTeamRow (now : Nat) (td : TeamData) (r : TeamRow) : TeamRow :=
  { r with name := teamNameOf td, abbreviation := teamAbbrOf td,
           city := teamCityOf td, updated_at := now }

/-- The insert branch of the teams upsert (lines 66-74 of data_manager.py). -/
def newTeamRow (now rid : Nat) (td : TeamData) : TeamRow :=
  ⟨rid, td.id, teamNameOf td, teamAbbrOf td, teamCityOf td,
   td.active.getD true, now, now⟩

/-- Replace the first row whose `nhl_id` equals the incoming id
(`session.query(Team).filter_by(nhl_id=...).first()` followed by
attribute assignment). -/
def replaceFirstTeam (now : Nat) (td : TeamData) : List TeamRow → List TeamRow
  | [] => []
  | r :: rs =>
    if r.nhl_id = td.id then updateTeamRow now td r :: rs
    else r :: replaceFirstTeam now td rs

/-- One iteration of the team loop of `fetch_and_store_teams`: update in
place when a row with the incoming `nhl_id` exists, otherwise insert.
Queries see earlier pending inserts of the same session (SQLAlchemy
autoflush). -/
def upsertTeam (now : Nat) (teams : List TeamRow) (td : TeamData) : List TeamRow :=
  if teams.any (fun r => r.nhl_id = td.id) then replaceFirstTeam now td teams
  else teams ++ [newTeamRow now (nextRid (teams.map TeamRow.rid)) td]

/-- DataManager.fetch_and_store_teams.  `apiResult` is the value returned
by `self.api_client.get_teams()` (`none` for a falsy result). -/
def fetch_and_store_teams (now : Nat) (dur : Rat)
    (apiResult : Option (List TeamData)) (fault : Fault) (st : DMState) :
    Bool × DMState :=
  match apiResult with
  | none =>
    (false, _log_fetch st "teams" "error" 0 (some "No data returned from API") none now)
  | some teams_data =>
    if teams_data.isEmpty then
      (false, _log_fetch st "teams" "error" 0 (some "No data returned from API") none now)
    else
      match fault with
      | .raise msg =>
        (false, _log_fetch st "teams" "error" 0 (some msg) (some dur) now)
      | .ok =>
        let teams1 := teams_data.foldl (upsertTeam now) st.teams
        (true, _log_fetch { st with teams := teams1 }
          "teams" "success" teams_data.length none (some dur) now)

/-- One incoming roster entry as read by `_store_player`.  The localized
name objects (`firstName`, `lastName`, `birthCity`) are represented by
their `default` sub-field (`none` when the object or the sub-field is
absent; both resolve to the empty string, as in the source). -/
structure PlayerData where
  id : PyVal
  firstName : Option String
  lastName : Option String
  sweaterNumber : Option Int
  positionCode : Option String
  shootsCatches : Option String
  heightInInches : Option Int
  weightInPounds : Option Int
  birthDate : Option String
  birthCity : Option String
  birthCountry : Option String
deriving DecidableEq, Repr

/-- A truthy roster payload dict; each absent position group reads as `[]`. -/
structure RosterData where
  forwards : List PlayerData
  defensemen : List PlayerData
  goalies : List PlayerData
deriving DecidableEq, Repr

/-- Numeric value of a list of decimal digits. -/
def natOfDigits (cs : List Char) : Nat :=
  cs.foldl (fun acc c => acc * 10 + (c.toNat - 48)) 0

/-- Leap year rule used by the Gregorian calendar. -/
def isLeap (y : Nat) : Bool :=
  y % 4 = 0 && (y % 100 != 0 || y % 400 = 0)

/-- Days in a month. -/
def daysInMonth (y m : Nat) : Nat :=
  if m = 2 then (if isLeap y then 29 else 28)
  else if m = 4 ∨ m = 6 ∨ m = 9 ∨ m = 11 then 30
  else 31

/-- All-digit non-empty character run to `Nat`. -/
def parseNatDigits (cs : List Char) : Option Nat :=
  if cs ≠ [] ∧ cs.all Char.isDigit then some (natOfDigits cs) else none

/-- Split a character list on a separator (like Python `str.split`). -/
def splitOnChar (sep : Char) : List Char → List (List Char)
  | [] => [[]]
  | c :: rest =>
    match splitOnChar sep rest with
    | [] => if c = sep then [[], []] else [[c]]
    | g :: gs => if c = sep then [] :: g :: gs else (c :: g) :: gs

/-- Models `datetime.strptime(s, '%Y-%m-%d').date()` wrapped in
try/except: a calendar-valid `YYYY-MM-DD` string yields a date, anything
else yields `none` (the parsing failure is absorbed). -/
def parseBirthDate (s : String) : Option (Nat × Nat × Nat) :=
  match splitOnChar '-' s.toList with
  | [ys, ms, ds] =>
    match parseNatDigits ys, parseNatDigits ms, parseNatDigits ds with
    | some y, some m, some d =>
      if ys.length ≤ 4 ∧ ms.length ≤ 2 ∧ ds.length ≤ 2 ∧
         1 ≤ y ∧ y ≤ 9999 ∧ 1 ≤ m ∧ m ≤ 12 ∧ 1 ≤ d ∧ d ≤ daysInMonth y m
      then some (y, m, d) else none
    | _, _, _ => none
  | _ => none

/-- Birth date resolution of `_store_player`:
`if player_data.get('birthDate'): try parse except pass`. -/
def birthDateOf (pd : PlayerData) : Option (Nat × Nat × Nat) :=
  match pd.birthDate with
  | some s => if s ≠ "" then parseBirthDate s else none
  | none => none

/-- The update branch of `_store_player` (every listed attribute is
overwritten; `active` is not touched on update). -/
def updatePlayerRow (now team_id : Nat) (pd : PlayerData) (p : PlayerRow) : PlayerRow :=
  let bd := birthDateOf pd
  { p with first_name := pd.firstName.getD "", last_name := pd.lastName.getD "",
           jersey_number := pd.sweaterNumber, position := pd.positionCode,
           shoots_catches := pd.shootsCatches, height_inches := pd.heightInInches,
           weight_pounds := pd.weightInPounds,
           birth_year := bd.map (fun x => x.1),
           birth_month := bd.map (fun x => x.2.1),
           birth_day := bd.map (fun x => x.2.2),
           birth_city := pd.birthCity.getD "", birth_country := pd.birthCountry,
           team_id := team_id, updated_at := now }

/-- The insert branch of `_store_player`. -/
def newPlayerRow (now rid team_id : Nat) (pd : PlayerData) : PlayerRow :=
  let bd := birthDateOf pd
  ⟨rid, pd.id, pd.firstName.getD "", pd.lastName.getD "", pd.sweaterNumber,
   pd.positionCode, pd.shootsCatches, pd.heightInInches, pd.weightInPounds,
   bd.map (fun x => x.1), bd.map (fun x => x.2.1), bd.map (fun x => x.2.2),
   pd.birthCity.getD "", pd.birthCountry, team_id, true, now, now⟩

/-- Replace the first player row with the given natural key. -/
def replaceFirstPlayer (now team_id : Nat) (pd : PlayerData) :
    List PlayerRow → List PlayerRow
  | [] => []
  | p :: ps =>
    if p.nhl_id = pd.id then updatePlayerRow now team_id pd p :: ps
    else p :: replaceFirstPlayer now team_id pd ps

/-- DataManager._store_player: skip records whose `id` is falsy, else
upsert by `nhl_id`. -/
def _store_player (now team_id : Nat) (players : List PlayerRow)
    (pd : PlayerData) : List PlayerRow :=
  if pyTruthy pd.id then
    if players.any (fun p => p.nhl_id = pd.id) then
      replaceFirstPlayer now team_id pd players
    else players ++ [newPlayerRow now (nextRid (players.map PlayerRow.rid)) team_id pd]
  else players

/-- `session.query(Team).filter_by(abbreviation=team_abbr).first()`. -/
def findTeamByAbbr (teams : List TeamRow) (ab : String) : Option TeamRow :=
  teams.find? (fun r => r.abbreviation = ab)

/-- DataManager.fetch_and_store_team_roster.  `apiResult` is the value of
`self.api_client.get_team_roster(team_abbr, season)`; the season argument
is only forwarded to the adapter, hence absorbed into `apiResult`. -/
def fetch_and_store_team_roster (team_abbr : String) (season : Option String)
    (apiResult : Option RosterData) (fault : Fault) (now : Nat) (dur : Rat)
    (st : DMState) : Bool × DMState :=
  match apiResult with
  | none =>
    (false, _log_fetch st "players" "error" 0
      (some ("No roster data for " ++ team_abbr)) none now)
  | some roster =>
    match findTeamByAbbr st.teams team_abbr with
    | none => (false, st)
    | some team =>
      match fault with
      | .raise msg =>
        (false, _log_fetch st "players" "error" 0 (some msg) (some dur) now)
      | .ok =>
        let entries := roster.forwards ++ roster.defensemen ++ roster.goalies
        let players1 := entries.foldl (_store_player now team.rid) st.players
        (true, _log_fetch { st with players := players1 }
          "players" "success" entries.length none (some dur) now)

/-- A date as seen by `date.today()`. -/
structure PDate where
  year : Nat
  month : Nat
  day : Nat
deriving DecidableEq, Repr

/-- NHLAPIClient.get_current_season. -/
def get_current_season (today : PDate) : String :=
  if 10 ≤ today.month then toString today.year ++ toString (today.year + 1)
  else toString (today.year - 1) ++ toString today.year

/-- The `standings` sub-dict of one club-stats payload, with the fields
read by `fetch_and_store_team_stats`. -/
structure StandingsStats where
  gamesPlayed : Option Int
  wins : Option Int
  losses : Option Int
  otLosses : Option Int
  points : Option Int
  pointPctg : Option Rat
  goalFor : Option Int
  goalAgainst : Option Int
  goalDifferential : Option Int
deriving DecidableEq, Repr

/-- A truthy club-stats payload dict
(`standings = stats_data.get('standings', {})`). -/
structure StatsData where
  standings : Option StandingsStats
deriving DecidableEq, Repr

/-- The update branch of the team-stats upsert (match keys untouched). -/
def updateTeamStatsRow (now : Nat) (sg : Option StandingsStats)
    (r : TeamStatsRow) : TeamStatsRow :=
  let g := fun (f : StandingsStats → Option Int) =>
    (sg.bind f).getD 0
  { r with games_played := g (fun x => x.gamesPlayed), wins := g (fun x => x.wins),
           losses := g (fun x => x.losses), overtime_losses := g (fun x => x.otLosses),
           points := g (fun x => x.points),
           point_percentage := (sg.bind (fun x => x.pointPctg)).getD 0,
           goals_for := g (fun x => x.goalFor), goals_against := g (fun x => x.goalAgainst),
           goal_differential := g (fun x => x.goalDifferential), updated_at := now }

/-- The insert branch of the team-stats upsert. -/
def newTeamStatsRow (now rid team_id : Nat) (season : String)
    (sg : Option StandingsStats) : TeamStatsRow :=
  let g := fun (f : StandingsStats → Option Int) => (sg.bind f).getD 0
  ⟨rid, team_id, season, g (fun x => x.gamesPlayed), g (fun x => x.wins),
   g (fun x => x.losses), g (fun x => x.otLosses), g (fun x => x.points),
   (sg.bind (fun x => x.pointPctg)).getD 0, g (fun x => x.goalFor),
   g (fun x => x.goalAgainst), g (fun x => x.goalDifferential), now, now⟩

/-- Replace the first team-stats row with the given composite key. -/
def replaceFirstStats (now : Nat) (team_id : Nat) (season : String)
    (sg : Option StandingsStats) : List TeamStatsRow → List TeamStatsRow
  | [] => []
  | r :: rs =>
    if r.team_id = team_id ∧ r.season = season then
      updateTeamStatsRow now sg r :: rs
    else r :: replaceFirstStats now team_id season sg rs

/-- Upsert of one TeamStats row keyed by `(team_id, season)`. -/
def upsertTeamStats (now team_id : Nat) (season : String)
    (sg : Option StandingsStats) (rows : List TeamStatsRow) : List TeamStatsRow :=
  if rows.any (fun r => r.team_id = team_id ∧ r.season = season) then
    replaceFirstStats now team_id season sg rows
  else rows ++ [newTeamStatsRow now (nextRid (rows.map TeamStatsRow.rid)) team_id season sg]

/-- DataManager.fetch_and_store_team_stats.  The season defaults to
`get_current_season()` when absent or empty. -/
def fetch_and_store_team_stats (team_abbr : String) (season : Option String)
    (today : PDate) (apiResult : Option StatsData) (fault : Fault)
    (now : Nat) (dur : Rat) (st : DMState) : Bool × DMState :=
  let seasonEff := pyOrS season (get_current_season today)
  match apiResult with
  | none =>
    (false, _log_fetch st "team_stats" "error" 0
      (some ("No stats for " ++ team_abbr)) none now)
  | some stats_data =>
    match findTeamByAbbr st.teams team_abbr with
    | none => (false, st)
    | some team =>
      match fault with
      | .raise msg =>
        (false, _log_fetch st "team_stats" "error" 0 (some msg) (some dur) now)
      | .ok =>
        let stats1 := upsertTeamStats now team.rid seasonEff stats_data.standings st.team_stats
        (true, _log_fetch { st with team_stats := stats1 }
          "team_stats" "success" 1 none (some dur) now)

/-- A JSON field of a standings entry that the adapter reads through the
`isinstance(..., dict)` dance: absent key (or `null`), plain string, or a
localized object carrying an optional `default` sub-field. -/
inductive JField where
  | absent : JField
  | jstr : String → JField
  | jobj : Option String → JField
deriving DecidableEq, Repr

/-- `x.get('default') if isinstance(x, dict) else x`, where an absent key
reads as either `None` or `{}` — both resolve the same way. -/
def fieldDefault : JField → Option String
  | .absent => none
  | .jstr s => some s
  | .jobj d => d

/-- One entry of the `standings` array of the teams payload, restricted
to the keys `get_teams` reads. -/
structure Standing where
  teamAbbrev : JField
  teamName : JField
  teamCommonName : JField
  placeName : JField
  teamLogo : PyVal
deriving DecidableEq, Repr

/-- The dict `get_teams` builds per standings entry (keys `id`, `name`,
`abbreviation`, `city`, `active`). -/
structure TeamObj where
  id : PyVal
  name : String
  abbreviation : Option String
  city : Option String
  active : Bool
deriving DecidableEq, Repr

/-- Python `str(x)` of an optional string, as used inside the f-string
compose fallback (`None` renders as `"None"`). -/
def pyStrOfOpt : Option String → String
  | none => "None"
  | some s => s

/-- `team_name or f"{city} {common_name}"`. -/
def teamDisplayName (tname city cname : Option String) : String :=
  match tname with
  | some s => if s = "" then pyStrOfOpt city ++ " " ++ pyStrOfOpt cname else s
  | none => pyStrOfOpt city ++ " " ++ pyStrOfOpt cname

/-- `re.search(r'/(\d+)\.', logo)`: first position where a `/` is
followed by a non-empty digit run followed by a dot; yields the numeric
value of the digit run. -/
def findLogoId : List Char → Option Nat
  | [] => none
  | c :: rest =>
    if c = '/' then
      let ds := rest.takeWhile Char.isDigit
      let rest2 := rest.dropWhile Char.isDigit
      if ds ≠ [] ∧ rest2.head? = some '.' then some (natOfDigits ds)
      else findLogoId rest
    else findLogoId rest

/-- Build one team dict from a standings entry (lines 57-84 of
nhl_api_client.py).  `pyhash` models Python's seeded `hash` of the
(possibly `None`) abbreviation value, an input of the program. -/
def mkTeamObj (pyhash : Option String → Int) (s : Standing) : TeamObj :=
  let abbrevVal := fieldDefault s.teamAbbrev
  let tname := fieldDefault s.teamName
  let cname := fieldDefault s.teamCommonName
  let city := fieldDefault s.placeName
  let tid := match s.teamLogo with
    | .vstr logo =>
      if logo.contains '/' then
        match findLogoId logo.toList with
        | some n => PyVal.vint n
        | none => PyVal.vint (pyhash abbrevVal % 100)
      else PyVal.vstr logo
    | v => v
  ⟨tid, teamDisplayName tname city cname, abbrevVal, city, true⟩

/-- The de-duplicating standings loop of `get_teams`: an entry is kept
only when its abbreviation is truthy and not yet seen. -/
def getTeamsLoop (pyhash : Option String → Int) :
    List Standing → List String → List TeamObj
  | [], _ => []
  | s :: rest, seen =>
    match fieldDefault s.teamAbbrev with
    | some a =>
      if a ≠ "" ∧ a ∉ seen then
        mkTeamObj pyhash s :: getTeamsLoop pyhash rest (a :: seen)
      else getTeamsLoop pyhash rest seen
    | none => getTeamsLoop pyhash rest seen

/-- The decoded `/standings/now` response: `none` models a transport
failure or falsy body, `some p` a truthy dict whose `standings` key may
be absent. -/
structure StandingsPayload where
  standings : Option (List Standing)
deriving Repr

/-- NHLAPIClient.get_teams. -/
def get_teams (pyhash : Option String → Int) (data : Option StandingsPayload) :
    Option (List TeamObj) :=
  match data with
  | none => none
  | some p =>
    match p.standings with
    | none => none
    | some l => some (getTeamsLoop pyhash l [])

/-- Reading one dict produced by `get_teams` with the keys
`fetch_and_store_teams` looks up (it reads `venue`, which `get_teams`
never emits, so the stored city falls back to the empty string). -/
def teamDataOfObj (o : TeamObj) : TeamData :=
  ⟨o.id, some o.name, none, o.abbreviation, none, none, some o.active⟩

/-- External inputs of one full `fetch_all_teams_data` run: the adapter
responses and the injected persistence faults, per operation. -/
structure RunEnv where
  teamsApi : Option (List TeamData)
  teamsFault : Fault
  rosterApi : String → Option RosterData
  rosterFault : String → Fault
  statsApi : String → Option StatsData
  statsFault : String → Fault

/-- Number of team rows carrying a given natural-key value. -/
def keyCount (teams : List TeamRow) (x : PyVal) : Nat :=
  (teams.filter (fun r => r.nhl_id = x)).length

/-- Natural-key uniqueness for `Team.nhl_id`. -/
def uniqTeamKeys (teams : List TeamRow) : Prop := ∀ x, keyCount teams x ≤ 1

/-- The ledger rows one roster fetch appends, as a function of the teams
table and the adapter outcome. -/
def rosterLogDelta (teams : List TeamRow) (ab : String) (api : Option RosterData)
    (fault : Fault) (now : Nat) (dur : Rat) : List LogRow :=
  match api with
  | none => [⟨"players", now, "error", 0, some ("No roster data for " ++ ab), none⟩]
  | some roster =>
    match findTeamByAbbr teams ab with
    | none => []
    | some _ =>
      match fault with
      | .raise msg => [⟨"players", now, "error", 0, some msg, some dur⟩]
      | .ok => [⟨"players", now, "success",
          ((roster.forwards ++ roster.defensemen ++ roster.goalies).length : Int),
          none, some dur⟩]

/-- The ledger rows one team-stats fetch appends. -/
def statsLogDelta (teams : List TeamRow) (ab : String) (api : Option StatsData)
    (fault : Fault) (now : Nat) (dur : Rat) : List LogRow :=
  match api with
  | none => [⟨"team_stats", now, "error", 0, some ("No stats for " ++ ab), none⟩]
  | some _ =>
    match findTeamByAbbr teams ab with
    | none => []
    | some _ =>
      match fault with
      | .raise msg => [⟨"team_stats", now, "error", 0, some msg, some dur⟩]
      | .ok => [⟨"team_stats", now, "success", 1, none, some dur⟩]

/-- DataManager.fetch_all_teams_data. -/
def fetch_all_teams_data (env : RunEnv) (season : Option String) (today : PDate)
    (now : Nat) (dur : Rat) (st : DMState) : Bool × DMState :=
  let r := fetch_and_store_teams now dur env.teamsApi env.teamsFault st
  if r.1 then
    let st1 := r.2
    let team_abbrs := (st1.teams.filter (fun t => t.active)).map (fun t => t.abbreviation)
    let stFinal := team_abbrs.foldl (fun acc ab =>
      let acc2 := (fetch_and_store_team_roster ab season (env.rosterApi ab)
        (env.rosterFault ab) now dur acc).2
      (fetch_and_store_team_stats ab season today (env.statsApi ab)
        (env.statsFault ab) now dur acc2).2) st1
    (true, stFinal)
  else (false, r.2)

/-! ## Basic lemmas about the state transformers -/

theorem log_fetch_teams_eq (st : DMState) (t s : String) (r : Int)
    (e : Option String) (d : Option Rat) (n : Nat) :
    (_log_fetch st t s r e d n).teams = st.teams := rfl

theorem log_fetch_players_eq (st : DMState) (t s : String) (r : Int)
    (e : Option String) (d : Option Rat) (n : Nat) :
    (_log_fetch st t s r e d n).players = st.players := rfl

theorem log_fetch_logs_eq (st : DMState) (t s : String) (r : Int)
    (e : Option String) (d : Option Rat) (n : Nat) :
    (_log_fetch st t s r e d n).logs = st.logs ++ [⟨t, n, s, r, e, d⟩] := rfl

/-- C5: for every date, `get_current_season` returns `"{year}{year+1}"`
when the month is October (10) or later and `"{year-1}{year}"` otherwise;
in particular November of year Y yields `"{Y}{Y+1}"` and March of year Y
yields `"{Y-1}{Y}"`. -/
theorem C5_current_season (d : PDate) (hy : 1 ≤ d.year) :
    (10 ≤ d.month → get_current_season d = toString d.year ++ toString (d.year + 1)) ∧
    (d.month < 10 → get_current_season d = toString (d.year - 1) ++ toString d.year) ∧
    (d.month = 11 → get_current_season d = toString d.year ++ toString (d.year + 1)) ∧
    (d.month = 3 → get_current_season d = toString (d.year - 1) ++ toString d.year) := by
  refine ⟨fun h => ?_, fun h => ?_, fun h => ?_, fun h => ?_⟩ <;>
    unfold get_current_season
  · rw [if_pos h]
  · rw [if_neg (by omega)]
  · rw [if_pos (by omega)]
  · rw [if_neg (by omega)]

/-- Witness for C5 at November 15, 2023 and March 1, 2024. -/
theorem C5_current_season_witness :
    get_current_season ⟨2023, 11, 15⟩ = "20232024" ∧
    get_current_season ⟨2024, 3, 1⟩ = "20232024" :=
  ⟨(C5_current_season ⟨2023, 11, 15⟩ (by decide)).2.2.1 (by decide),
   (C5_current_season ⟨2024, 3, 1⟩ (by decide)).2.2.2 (by decide)⟩

/-- C3: when the upstream payload is obtained but the team code is not
found in the datastore, both the roster fetch and the team-stats fetch
return `False` and leave the datastore (the fetch ledger included)
completely unchanged. -/
theorem C3_missing_team_returns_false_no_ledger :
    (∀ ab season r fault now dur st, findTeamByAbbr st.teams ab = none →
      fetch_and_store_team_roster ab season (some r) fault now dur st = (false, st)) ∧
    (∀ ab season today sd fault now dur st, findTeamByAbbr st.teams ab = none →
      fetch_and_store_team_stats ab season today (some sd) fault now dur st = (false, st)) := by
  constructor
  · intro ab season r fault now dur st h
    simp [fetch_and_store_team_roster, h]
  · intro ab season today sd fault now dur st h
    simp [fetch_and_store_team_stats, h]

/-- Witness for C3: empty datastore, truthy payloads for team `TOR`. -/
theorem C3_missing_team_witness :
    fetch_and_store_team_roster "TOR" none (some ⟨[], [], []⟩) .ok 0 0 ⟨[], [], [], []⟩
      = (false, ⟨[], [], [], []⟩) ∧
    fetch_and_store_team_stats "TOR" none ⟨2024, 1, 1⟩ (some ⟨none⟩) .ok 0 0 ⟨[], [], [], []⟩
      = (false, ⟨[], [], [], []⟩) :=
  ⟨C3_missing_team_returns_false_no_ledger.1 "TOR" none ⟨[], [], []⟩ .ok 0 0
     ⟨[], [], [], []⟩ (by decide),
   C3_missing_team_returns_false_no_ledger.2 "TOR" none ⟨2024, 1, 1⟩ ⟨none⟩ .ok 0 0
     ⟨[], [], [], []⟩ (by decide)⟩

/-- C4: a persistence failure inside the datastore session of a fetch
operation rolls back every entity change of that session (the resulting
state differs from the initial one only by the ledger), is caught, is
recorded as an `error` ledger entry carrying the exception message and a
duration, and the operation returns `False`. -/
theorem C4_rollback_error_entry :
    (∀ now dur tds msg st, tds ≠ [] →
      fetch_and_store_teams now dur (some tds) (.raise msg) st =
        (false, { st with logs := st.logs ++ [⟨"teams", now, "error", 0, some msg, some dur⟩] })) ∧
    (∀ ab season r msg now dur st, (findTeamByAbbr st.teams ab).isSome →
      fetch_and_store_team_roster ab season (some r) (.raise msg) now dur st =
        (false, { st with logs := st.logs ++ [⟨"players", now, "error", 0, some msg, some dur⟩] })) ∧
    (∀ ab season today sd msg now dur st, (findTeamByAbbr st.teams ab).isSome →
      fetch_and_store_team_stats ab season today (some sd) (.raise msg) now dur st =
        (false, { st with logs := st.logs ++ [⟨"team_stats", now, "error", 0, some msg, some dur⟩] })) := by
  refine ⟨?_, ?_, ?_⟩
  · intro now dur tds msg st h
    cases tds with
    | nil => exact absurd rfl h
    | cons t ts => simp [fetch_and_store_teams, _log_fetch]
  · intro ab season r msg now dur st h
    rcases Option.isSome_iff_exists.mp h with ⟨team, hteam⟩
    simp [fetch_and_store_team_roster, hteam, _log_fetch]
  · intro ab season today sd msg now dur st h
    rcases Option.isSome_iff_exists.mp h with ⟨team, hteam⟩
    simp [fetch_and_store_team_stats, hteam, _log_fetch]

/-- Witness for C4 on a one-team datastore with a failing session. -/
theorem C4_rollback_error_entry_witness :
    fetch_and_store_teams 7 1 (some [⟨.vint 10, some "N", none, none, none, none, none⟩])
        (.raise "boom") ⟨[⟨1, .vint 10, "Old", "TOR", "", true, 0, 0⟩], [], [], []⟩ =
      (false, ⟨[⟨1, .vint 10, "Old", "TOR", "", true, 0, 0⟩], [], [],
               [⟨"teams", 7, "error", 0, some "boom", some 1⟩]⟩) ∧
    fetch_and_store_team_roster "TOR" none (some ⟨[], [], []⟩) (.raise "boom") 7 1
        ⟨[⟨1, .vint 10, "Old", "TOR", "", true, 0, 0⟩], [], [], []⟩ =
      (false, ⟨[⟨1, .vint 10, "Old", "TOR", "", true, 0, 0⟩], [], [],
               [⟨"players", 7, "error", 0, some "boom", some 1⟩]⟩) ∧
    fetch_and_store_team_stats "TOR" none ⟨2024, 1, 1⟩ (some ⟨none⟩) (.raise "boom") 7 1
        ⟨[⟨1, .vint 10, "Old", "TOR", "", true, 0, 0⟩], [], [], []⟩ =
      (false, ⟨[⟨1, .vint 10, "Old", "TOR", "", true, 0, 0⟩], [], [],
               [⟨"team_stats", 7, "error", 0, some "boom", some 1⟩]⟩) :=
  ⟨C4_rollback_error_entry.1 7 1 [⟨.vint 10, some "N", none, none, none, none, none⟩]
     "boom" ⟨[⟨1, .vint 10, "Old", "TOR", "", true, 0, 0⟩], [], [], []⟩ (by decide),
   C4_rollback_error_entry.2.1 "TOR" none ⟨[], [], []⟩ "boom" 7 1
     ⟨[⟨1, .vint 10, "Old", "TOR", "", true, 0, 0⟩], [], [], []⟩ (by decide),
   C4_rollback_error_entry.2.2 "TOR" none ⟨2024, 1, 1⟩ ⟨none⟩ "boom" 7 1
     ⟨[⟨1, .vint 10, "Old", "TOR", "", true, 0, 0⟩], [], [], []⟩ (by decide)⟩

/-- Counterexample for C2: a roster fetch invocation whose payload is
obtained but whose team code is absent from the datastore exits normally
(returning `False`) with ZERO FetchLogEntry rows written, so this fetch
invocation does not create exactly one ledger entry. -/
theorem C2_counterexample :
    (fetch_and_store_team_roster "TOR" none (some ⟨[], [], []⟩) .ok 0 0
      ⟨[], [], [], []⟩).1 = false ∧
    (fetch_and_store_team_roster "TOR" none (some ⟨[], [], []⟩) .ok 0 0
      ⟨[], [], [], []⟩).2.logs = [] := by decide

/-- C2 (amended): a teams fetch writes exactly one FetchLogEntry on every
exit path; a roster fetch and a team-stats fetch write exactly one entry
on every exit path except the missing-precondition early return (payload
obtained but team code not found), which writes none. -/
theorem C2_ledger_growth_amended :
    (∀ now dur api fault st,
      (fetch_and_store_teams now dur api fault st).2.logs.length = st.logs.length + 1) ∧
    (∀ ab season api fault now dur st,
      (fetch_and_store_team_roster ab season api fault now dur st).2.logs.length =
        st.logs.length +
          (if api.isSome ∧ findTeamByAbbr st.teams ab = none then 0 else 1)) ∧
    (∀ ab season today api fault now dur st,
      (fetch_and_store_team_stats ab season today api fault now dur st).2.logs.length =
        st.logs.length +
          (if api.isSome ∧ findTeamByAbbr st.teams ab = none then 0 else 1)) := by
  refine ⟨?_, ?_, ?_⟩
  · intro now dur api fault st
    cases api with
    | none => simp [fetch_and_store_teams, _log_fetch]
    | some tds =>
      cases tds with
      | nil => simp [fetch_and_store_teams, _log_fetch]
      | cons t ts =>
        cases fault with
        | ok => simp [fetch_and_store_teams, _log_fetch]
        | raise msg => simp [fetch_and_store_teams, _log_fetch]
  · intro ab season api fault now dur st
    cases api with
    | none => simp [fetch_and_store_team_roster, _log_fetch]
    | some roster =>
      cases hteam : findTeamByAbbr st.teams ab with
      | none => simp [fetch_and_store_team_roster, hteam, _log_fetch]
      | some team =>
        cases fault with
        | ok => simp [fetch_and_store_team_roster, hteam, _log_fetch]
        | raise msg => simp [fetch_and_store_team_roster, hteam, _log_fetch]
  · intro ab season today api fault now dur st
    cases api with
    | none => simp [fetch_and_store_team_stats, _log_fetch]
    | some sd =>
      cases hteam : findTeamByAbbr st.teams ab with
      | none => simp [fetch_and_store_team_stats, hteam, _log_fetch]
      | some team =>
        cases fault with
        | ok => simp [fetch_and_store_team_stats, hteam, _log_fetch]
        | raise msg => simp [fetch_and_store_team_stats, hteam, _log_fetch]

/-- The de-duplicating standings loop yields no team dicts when no entry
carries a truthy abbreviation. -/
theorem getTeamsLoop_eq_nil (pyhash : Option String → Int) :
    ∀ (l : List Standing),
      (∀ s ∈ l, fieldDefault s.teamAbbrev = none ∨ fieldDefault s.teamAbbrev = some "") →
      ∀ seen, getTeamsLoop pyhash l seen = []
  | [], _, _ => rfl
  | s :: rest, h, seen => by
    have hs := h s (List.mem_cons_self s rest)
    have hr := getTeamsLoop_eq_nil pyhash rest
      (fun x hx => h x (List.mem_cons_of_mem _ hx))
    rcases hs with h1 | h1 <;> simp [getTeamsLoop, h1, hr]

/-- C10: when the adapter's `get_teams` yields an empty team list (an
empty standings array, or no entry with a truthy abbreviation),
`fetch_and_store_teams` treats it exactly like a transport failure: it
writes an `error` ledger entry with message `No data returned from API`,
returns `False`, and persists no Team rows. -/
theorem C10_empty_team_list_is_error (pyhash : Option String → Int)
    (l : List Standing)
    (hall : ∀ s ∈ l, fieldDefault s.teamAbbrev = none ∨ fieldDefault s.teamAbbrev = some "")
    (fault : Fault) (now : Nat) (dur : Rat) (st : DMState) :
    fetch_and_store_teams now dur
      ((get_teams pyhash (some ⟨some l⟩)).map (List.map teamDataOfObj)) fault st =
      (false, { st with logs := st.logs ++
        [⟨"teams", now, "error", 0, some "No data returned from API", none⟩] }) := by
  have h := getTeamsLoop_eq_nil pyhash l hall []
  simp [get_teams, h, fetch_and_store_teams, _log_fetch]

/-- Witness for C10: a standings payload whose single entry lacks an
abbreviation. -/
theorem C10_empty_team_list_is_error_witness :
    fetch_and_store_teams 3 1
      ((get_teams (fun _ => 0) (some ⟨some [⟨.absent, .absent, .absent, .absent, .vnone⟩]⟩)).map
        (List.map teamDataOfObj)) .ok ⟨[], [], [], []⟩ =
      (false, ⟨[], [], [],
        [⟨"teams", 3, "error", 0, some "No data returned from API", none⟩]⟩) :=
  C10_empty_team_list_is_error (fun _ => 0) [⟨.absent, .absent, .absent, .absent, .vnone⟩]
    (by decide) .ok 3 1 ⟨[], [], [], []⟩

/-! ## Lemmas on the teams upsert -/

theorem updateTeamRow_nhl_id (now : Nat) (td : TeamData) (r : TeamRow) :
    (updateTeamRow now td r).nhl_id = r.nhl_id := rfl

theorem newTeamRow_nhl_id (now rid : Nat) (td : TeamData) :
    (newTeamRow now rid td).nhl_id = td.id := rfl

theorem replaceFirstTeam_cons_pos (now : Nat) (td : TeamData) (r : TeamRow)
    (rs : List TeamRow) (hr : r.nhl_id = td.id) :
    replaceFirstTeam now td (r :: rs) = updateTeamRow now td r :: rs := by
  simp [replaceFirstTeam, hr]

theorem replaceFirstTeam_cons_neg (now : Nat) (td : TeamData) (r : TeamRow)
    (rs : List TeamRow) (hr : ¬ r.nhl_id = td.id) :
    replaceFirstTeam now td (r :: rs) = r :: replaceFirstTeam now td rs := by
  simp [replaceFirstTeam, hr]

theorem filter_replaceFirstTeam_ne (now : Nat) (td : TeamData) (x : PyVal)
    (h : td.id ≠ x) :
    ∀ teams : List TeamRow,
      (replaceFirstTeam now td teams).filter (fun r => r.nhl_id = x) =
        teams.filter (fun r => r.nhl_id = x)
  | [] => rfl
  | r :: rs => by
    by_cases hr : r.nhl_id = td.id
    · have hrx : ¬ r.nhl_id = x := by rw [hr]; exact h
      rw [replaceFirstTeam_cons_pos now td r rs hr,
        List.filter_cons, List.filter_cons, updateTeamRow_nhl_id]
      simp [hrx]
    · rw [replaceFirstTeam_cons_neg now td r rs hr, List.filter_cons, List.filter_cons,
        filter_replaceFirstTeam_ne now td x h rs]

theorem filter_replaceFirstTeam_self (now : Nat) (td : TeamData) (r0 : TeamRow) :
    ∀ teams : List TeamRow,
      teams.filter (fun r => r.nhl_id = td.id) = [r0] →
      (replaceFirstTeam now td teams).filter (fun r => r.nhl_id = td.id) =
        [updateTeamRow now td r0]
  | [], hone => by simp at hone
  | r :: rs, hone => by
    by_cases hr : r.nhl_id = td.id
    · rw [List.filter_cons_of_pos (by simpa using hr)] at hone
      have hr0 : r = r0 := (List.cons_eq_cons.mp hone).1
      have hrs : rs.filter (fun r => r.nhl_id = td.id) = [] :=
        (List.cons_eq_cons.mp hone).2
      rw [replaceFirstTeam_cons_pos now td r rs hr, List.filter_cons,
        updateTeamRow_nhl_id, hr0]
      simp [hr0 ▸ hr, hrs]
    · rw [List.filter_cons_of_neg (by simpa using hr)] at hone
      rw [replaceFirstTeam_cons_neg now td r rs hr, List.filter_cons]
      simp [hr, filter_replaceFirstTeam_self now td r0 rs hone]

theorem keyCount_replaceFirstTeam (now : Nat) (td : TeamData) (x : PyVal) :
    ∀ teams : List TeamRow,
      keyCount (replaceFirstTeam now td teams) x = keyCount teams x
  | [] => rfl
  | r :: rs => by
    have ih := keyCount_replaceFirstTeam now td x rs
    unfold keyCount at ih ⊢
    by_cases hr : r.nhl_id = td.id
    · rw [replaceFirstTeam_cons_pos now td r rs hr, List.filter_cons, List.filter_cons,
        updateTeamRow_nhl_id]
      by_cases hx : r.nhl_id = x <;> simp [hx]
    · rw [replaceFirstTeam_cons_neg now td r rs hr, List.filter_cons, List.filter_cons]
      by_cases hx : r.nhl_id = x <;> simp [hx, ih]

theorem keyCount_append_new (teams : List TeamRow) (now rid : Nat) (td : TeamData)
    (x : PyVal) :
    keyCount (teams ++ [newTeamRow now rid td]) x =
      keyCount teams x + (if td.id = x then 1 else 0) := by
  by_cases hx : td.id = x <;>
    simp [keyCount, List.filter_append, List.filter_cons, newTeamRow, hx]

theorem keyCount_eq_zero_of_not_any (teams : List TeamRow) (y : PyVal)
    (h : teams.any (fun r => r.nhl_id = y) = false) : keyCount teams y = 0 := by
  unfold keyCount
  rw [List.length_eq_zero, List.filter_eq_nil_iff]
  intro a ha
  simp only [List.any_eq_false] at h
  simpa using h a ha

theorem uniq_upsertTeam (now : Nat) (td : TeamData) (teams : List TeamRow)
    (h : uniqTeamKeys teams) : uniqTeamKeys (upsertTeam now teams td) := by
  intro x
  unfold upsertTeam
  by_cases hany : teams.any (fun r => r.nhl_id = td.id) = true
  · rw [if_pos hany, keyCount_replaceFirstTeam]
    exact h x
  · rw [if_neg hany, keyCount_append_new]
    by_cases hx : td.id = x
    · subst hx
      have h0 := keyCount_eq_zero_of_not_any teams td.id
        (Bool.eq_false_iff.mpr hany)
      simp [h0]
    · simpa [hx] using h x

theorem uniq_foldl_upsertTeam (now : Nat) :
    ∀ (tds : List TeamData) (teams : List TeamRow),
      uniqTeamKeys teams → uniqTeamKeys (tds.foldl (upsertTeam now) teams)
  | [], _, h => h
  | td :: rest, teams, h =>
    uniq_foldl_upsertTeam now rest (upsertTeam now teams td) (uniq_upsertTeam now td teams h)

theorem filter_upsertTeam_ne (now : Nat) (teams : List TeamRow) (td : TeamData)
    (x : PyVal) (h : td.id ≠ x) :
    (upsertTeam now teams td).filter (fun r => r.nhl_id = x) =
      teams.filter (fun r => r.nhl_id = x) := by
  unfold upsertTeam
  by_cases hany : teams.any (fun r => r.nhl_id = td.id) = true
  · rw [if_pos hany]
    exact filter_replaceFirstTeam_ne now td x h teams
  · rw [if_neg hany]
    simp [List.filter_append, List.filter_cons, newTeamRow, h]

theorem filter_upsertTeam_self (now : Nat) (teams : List TeamRow) (td : TeamData)
    (r0 : TeamRow) (hone : teams.filter (fun r => r.nhl_id = td.id) = [r0]) :
    (upsertTeam now teams td).filter (fun r => r.nhl_id = td.id) =
      [updateTeamRow now td r0] := by
  have hmem : r0 ∈ teams.filter (fun r => r.nhl_id = td.id) := by
    rw [hone]; exact List.mem_singleton.mpr rfl
  have hany : teams.any (fun r => r.nhl_id = td.id) = true := by
    rcases List.mem_filter.mp hmem with ⟨hm, hp⟩
    exact List.any_eq_true.mpr ⟨r0, hm, hp⟩
  unfold upsertTeam
  rw [if_pos hany]
  exact filter_replaceFirstTeam_self now td r0 teams hone

theorem filter_foldl_upsertTeam_nil (now : Nat) (x : PyVal) :
    ∀ (tds : List TeamData) (teams : List TeamRow),
      tds.filter (fun td => td.id = x) = [] →
      (tds.foldl (upsertTeam now) teams).filter (fun r => r.nhl_id = x) =
        teams.filter (fun r => r.nhl_id = x)
  | [], _, _ => rfl
  | td :: rest, teams, h => by
    by_cases hx : td.id = x
    · rw [List.filter_cons_of_pos (by simpa using hx)] at h
      exact absurd h (List.cons_ne_nil td _)
    · rw [List.filter_cons_of_neg (by simpa using hx)] at h
      rw [List.foldl_cons,
        filter_foldl_upsertTeam_nil now x rest (upsertTeam now teams td) h,
        filter_upsertTeam_ne now teams td x hx]

theorem filter_foldl_upsertTeam_single (now : Nat) (x : PyVal) (td0 : TeamData) :
    ∀ (tds : List TeamData) (teams : List TeamRow) (r0 : TeamRow),
      tds.filter (fun td => td.id = x) = [td0] →
      teams.filter (fun r => r.nhl_id = x) = [r0] →
      (tds.foldl (upsertTeam now) teams).filter (fun r => r.nhl_id = x) =
        [updateTeamRow now td0 r0]
  | [], _, _, h1, _ => by simp at h1
  | td :: rest, teams, r0, h1, h2 => by
    by_cases hx : td.id = x
    · rw [List.filter_cons_of_pos (by simpa using hx)] at h1
      have htd : td = td0 := (List.cons_eq_cons.mp h1).1
      have hrest : rest.filter (fun td => td.id = x) = [] :=
        (List.cons_eq_cons.mp h1).2
      subst htd
      subst hx
      rw [List.foldl_cons,
        filter_foldl_upsertTeam_nil now td.id rest (upsertTeam now teams td) hrest,
        filter_upsertTeam_self now teams td r0 h2]
    · rw [List.filter_cons_of_neg (by simpa using hx)] at h1
      rw [List.foldl_cons]
      exact filter_foldl_upsertTeam_single now x td0 rest (upsertTeam now teams td) r0 h1
        (by rw [filter_upsertTeam_ne now teams td x hx, h2])

/-- A roster fetch never touches the teams table. -/
theorem roster_fetch_teams_eq (ab : String) (season : Option String)
    (api : Option RosterData) (fault : Fault) (now : Nat) (dur : Rat) (st : DMState) :
    (fetch_and_store_team_roster ab season api fault now dur st).2.teams = st.teams := by
  cases api with
  | none => simp [fetch_and_store_team_roster, _log_fetch]
  | some r =>
    cases hteam : findTeamByAbbr st.teams ab with
    | none => simp [fetch_and_store_team_roster, hteam]
    | some t => cases fault <;> simp [fetch_and_store_team_roster, hteam, _log_fetch]

/-- A team-stats fetch never touches the teams table. -/
theorem stats_fetch_teams_eq (ab : String) (season : Option String) (today : PDate)
    (api : Option StatsData) (fault : Fault) (now : Nat) (dur : Rat) (st : DMState) :
    (fetch_and_store_team_stats ab season today api fault now dur st).2.teams = st.teams := by
  cases api with
  | none => simp [fetch_and_store_team_stats, _log_fetch]
  | some sd =>
    cases hteam : findTeamByAbbr st.teams ab with
    | none => simp [fetch_and_store_team_stats, hteam]
    | some t => cases fault <;> simp [fetch_and_store_team_stats, hteam, _log_fetch]

/-- C1: a teams fetch whose payload contains a record with an already
present external id resolves to an in-place update of that one row — its
name becomes the incoming name, its `updated_at` is refreshed, no second
row with that external id appears — and natural-key uniqueness of
`Team.nhl_id` is preserved by every fetch operation, hence by any
sequence of fetches (roster and team-stats fetches never touch the teams
table at all). -/
theorem C1_team_natural_key_upsert :
    (∀ now dur api fault st, uniqTeamKeys st.teams →
      uniqTeamKeys (fetch_and_store_teams now dur api fault st).2.teams) ∧
    (∀ ab season api fault now dur st,
      (fetch_and_store_team_roster ab season api fault now dur st).2.teams = st.teams) ∧
    (∀ ab season today api fault now dur st,
      (fetch_and_store_team_stats ab season today api fault now dur st).2.teams = st.teams) ∧
    (∀ now dur tds td0 x r0 st,
      tds.filter (fun td => td.id = x) = [td0] →
      st.teams.filter (fun r => r.nhl_id = x) = [r0] →
      (fetch_and_store_teams now dur (some tds) .ok st).2.teams.filter
          (fun r => r.nhl_id = x) =
        [{ r0 with name := teamNameOf td0, abbreviation := teamAbbrOf td0,
                   city := teamCityOf td0, updated_at := now }]) := by
  refine ⟨?_, roster_fetch_teams_eq, stats_fetch_teams_eq, ?_⟩
  · intro now dur api fault st h
    cases api with
    | none => simpa [fetch_and_store_teams, _log_fetch] using h
    | some tds =>
      cases tds with
      | nil => simpa [fetch_and_store_teams, _log_fetch] using h
      | cons t ts =>
        cases fault with
        | raise msg => simpa [fetch_and_store_teams, _log_fetch] using h
        | ok =>
          have : (fetch_and_store_teams now dur (some (t :: ts)) .ok st).2.teams =
              (t :: ts).foldl (upsertTeam now) st.teams := by
            simp [fetch_and_store_teams, _log_fetch]
          rw [this]
          exact uniq_foldl_upsertTeam now (t :: ts) st.teams h
  · intro now dur tds td0 x r0 st h1 h2
    cases tds with
    | nil => simp at h1
    | cons t ts =>
      have : (fetch_and_store_teams now dur (some (t :: ts)) .ok st).2.teams =
          (t :: ts).foldl (upsertTeam now) st.teams := by
        simp [fetch_and_store_teams, _log_fetch]
      rw [this]
      exact filter_foldl_upsertTeam_single now x td0 (t :: ts) st.teams r0 h1 h2

/-- Witness for C1: a one-row datastore refetched with a changed name. -/
theorem C1_team_natural_key_upsert_witness :
    uniqTeamKeys (fetch_and_store_teams 1 0
      (some [⟨.vint 10, some "New Name", none, some "NEW", none, none, some true⟩])
      .ok ⟨[⟨1, .vint 10, "Old Name", "OLD", "", true, 0, 0⟩], [], [], []⟩).2.teams ∧
    (fetch_and_store_teams 1 0
      (some [⟨.vint 10, some "New Name", none, some "NEW", none, none, some true⟩])
      .ok ⟨[⟨1, .vint 10, "Old Name", "OLD", "", true, 0, 0⟩], [], [], []⟩).2.teams.filter
        (fun r => r.nhl_id = .vint 10) =
      [⟨1, .vint 10, "New Name", "NEW", "", true, 0, 1⟩] :=
  ⟨C1_team_natural_key_upsert.1 1 0
    (some [⟨.vint 10, some "New Name", none, some "NEW", none, none, some true⟩]) .ok
    ⟨[⟨1, .vint 10, "Old Name", "OLD", "", true, 0, 0⟩], [], [], []⟩
    (by intro x; simp [keyCount, List.filter_cons]; split <;> simp),
   C1_team_natural_key_upsert.2.2.2 1 0
    [⟨.vint 10, some "New Name", none, some "NEW", none, none, some true⟩]
    ⟨.vint 10, some "New Name", none, some "NEW", none, none, some true⟩ (.vint 10)
    ⟨1, .vint 10, "Old Name", "OLD", "", true, 0, 0⟩
    ⟨[⟨1, .vint 10, "Old Name", "OLD", "", true, 0, 0⟩], [], [], []⟩
    (by decide) (by decide)⟩

theorem length_replaceFirstTeam (now : Nat) (td : TeamData) :
    ∀ teams : List TeamRow, (replaceFirstTeam now td teams).length = teams.length
  | [] => rfl
  | r :: rs => by
    by_cases hr : r.nhl_id = td.id
    · rw [replaceFirstTeam_cons_pos now td r rs hr]; simp
    · rw [replaceFirstTeam_cons_neg now td r rs hr]
      simp [length_replaceFirstTeam now td rs]

/-- Counterexample for C8: a teams fetch matching the existing row with
external id 10 leaves the stored `active` flag at `false` although the
incoming record carries `active = true` — the active attribute is not
overwritten on update. -/
theorem C8_counterexample :
    (fetch_and_store_teams 5 0
      (some [⟨.vint 10, some "New Name", none, some "NEW", none, none, some true⟩]) .ok
      ⟨[⟨1, .vint 10, "Old Name", "OLD", "", false, 0, 0⟩], [], [], []⟩).2.teams =
      [⟨1, .vint 10, "New Name", "NEW", "", false, 0, 5⟩] := by decide

/-- C8 (amended): on a teams-fetch match by external id, the attributes
`name`, `abbreviation` and `city` are overwritten from the incoming
record and `updated_at` is refreshed, while the external id — and also
the `active` flag, which is only set on insert — stay unchanged; the row
count does not grow (update in place, not insert). -/
theorem C8_update_overwrites_all_but_active (now : Nat) (td : TeamData)
    (teams : List TeamRow) (r0 : TeamRow)
    (hone : teams.filter (fun r => r.nhl_id = td.id) = [r0]) :
    (upsertTeam now teams td).filter (fun r => r.nhl_id = td.id) =
      [{ r0 with name := teamNameOf td, abbreviation := teamAbbrOf td,
                 city := teamCityOf td, updated_at := now }] ∧
    (upsertTeam now teams td).length = teams.length := by
  have hmem : r0 ∈ teams.filter (fun r => r.nhl_id = td.id) := by
    rw [hone]; exact List.mem_singleton.mpr rfl
  have hany : teams.any (fun r => r.nhl_id = td.id) = true := by
    rcases List.mem_filter.mp hmem with ⟨hm, hp⟩
    exact List.any_eq_true.mpr ⟨r0, hm, hp⟩
  constructor
  · exact filter_upsertTeam_self now teams td r0 hone
  · unfold upsertTeam
    rw [if_pos hany]
    exact length_replaceFirstTeam now td teams

/-- Witness for C8 (amended) on a one-row table. -/
theorem C8_update_overwrites_all_but_active_witness :
    (upsertTeam 5 [⟨1, .vint 10, "Old Name", "OLD", "", false, 0, 0⟩]
        ⟨.vint 10, some "New Name", none, some "NEW", none, none, some true⟩).filter
      (fun r => r.nhl_id = (⟨.vint 10, some "New Name", none, some "NEW", none, none,
        some true⟩ : TeamData).id) =
      [⟨1, .vint 10, "New Name", "NEW", "", false, 0, 5⟩] ∧
    (upsertTeam 5 [⟨1, .vint 10, "Old Name", "OLD", "", false, 0, 0⟩]
        ⟨.vint 10, some "New Name", none, some "NEW", none, none, some true⟩).length = 1 :=
  C8_update_overwrites_all_but_active 5
    ⟨.vint 10, some "New Name", none, some "NEW", none, none, some true⟩
    [⟨1, .vint 10, "Old Name", "OLD", "", false, 0, 0⟩]
    ⟨1, .vint 10, "Old Name", "OLD", "", false, 0, 0⟩ (by decide)

/-- Counterexample for C9: a successful roster fetch whose single entry
lacks an id logs a records-affected count of 1 while zero players were
inserted or updated (the players table stays empty). -/
theorem C9_counterexample :
    (fetch_and_store_team_roster "TOR" none
      (some ⟨[⟨.vnone, none, none, none, none, none, none, none, none, none, none⟩], [], []⟩)
      .ok 5 0 ⟨[⟨1, .vint 1, "Toronto", "TOR", "", true, 0, 0⟩], [], [], []⟩).1 = true ∧
    (fetch_and_store_team_roster "TOR" none
      (some ⟨[⟨.vnone, none, none, none, none, none, none, none, none, none, none⟩], [], []⟩)
      .ok 5 0 ⟨[⟨1, .vint 1, "Toronto", "TOR", "", true, 0, 0⟩], [], [], []⟩).2.players = [] ∧
    (fetch_and_store_team_roster "TOR" none
      (some ⟨[⟨.vnone, none, none, none, none, none, none, none, none, none, none⟩], [], []⟩)
      .ok 5 0 ⟨[⟨1, .vint 1, "Toronto", "TOR", "", true, 0, 0⟩], [], [], []⟩).2.logs.map
        LogRow.records_fetched = [1] := by decide

/-- C9 (amended): the records-affected count of a successful teams fetch
equals the number of payload records; that of a successful roster fetch
equals the total number of entries of the flattened
forwards/defensemen/goalies groups — entries with a falsy id are counted
even though they are skipped without being persisted — and that of a
successful team-stats fetch is 1. -/
theorem C9_record_count_amended :
    (∀ now dur tds st, tds ≠ ([] : List TeamData) →
      (fetch_and_store_teams now dur (some tds) .ok st).2.logs =
        st.logs ++ [⟨"teams", now, "success", (tds.length : Int), none, some dur⟩]) ∧
    (∀ ab season r now dur st, (findTeamByAbbr st.teams ab).isSome →
      (fetch_and_store_team_roster ab season (some r) .ok now dur st).2.logs =
        st.logs ++ [⟨"players", now, "success",
          ((r.forwards ++ r.defensemen ++ r.goalies).length : Int), none, some dur⟩]) ∧
    (∀ ab season today sd now dur st, (findTeamByAbbr st.teams ab).isSome →
      (fetch_and_store_team_stats ab season today (some sd) .ok now dur st).2.logs =
        st.logs ++ [⟨"team_stats", now, "success", 1, none, some dur⟩]) := by
  refine ⟨?_, ?_, ?_⟩
  · intro now dur tds st h
    cases tds with
    | nil => exact absurd rfl h
    | cons t ts => simp [fetch_and_store_teams, _log_fetch]
  · intro ab season r now dur st h
    rcases Option.isSome_iff_exists.mp h with ⟨team, hteam⟩
    simp [fetch_and_store_team_roster, hteam, _log_fetch]
  · intro ab season today sd now dur st h
    rcases Option.isSome_iff_exists.mp h with ⟨team, hteam⟩
    simp [fetch_and_store_team_stats, hteam, _log_fetch]

/-- Witness for C9 (amended): one-record payloads against a one-team
datastore. -/
theorem C9_record_count_amended_witness :
    (fetch_and_store_teams 5 1
      (some [⟨.vint 10, some "N", none, none, none, none, none⟩]) .ok
      ⟨[⟨1, .vint 1, "Toronto", "TOR", "", true, 0, 0⟩], [], [], []⟩).2.logs =
      [⟨"teams", 5, "success", 1, none, some 1⟩] ∧
    (fetch_and_store_team_roster "TOR" none
      (some ⟨[⟨.vint 2, none, none, none, none, none, none, none, none, none, none⟩], [], []⟩)
      .ok 5 1 ⟨[⟨1, .vint 1, "Toronto", "TOR", "", true, 0, 0⟩], [], [], []⟩).2.logs =
      [⟨"players", 5, "success", 1, none, some 1⟩] ∧
    (fetch_and_store_team_stats "TOR" none ⟨2024, 1, 1⟩ (some ⟨none⟩) .ok 5 1
      ⟨[⟨1, .vint 1, "Toronto", "TOR", "", true, 0, 0⟩], [], [], []⟩).2.logs =
      [⟨"team_stats", 5, "success", 1, none, some 1⟩] :=
  ⟨C9_record_count_amended.1 5 1 [⟨.vint 10, some "N", none, none, none, none, none⟩]
     ⟨[⟨1, .vint 1, "Toronto", "TOR", "", true, 0, 0⟩], [], [], []⟩ (by decide),
   C9_record_count_amended.2.1 "TOR" none
     ⟨[⟨.vint 2, none, none, none, none, none, none, none, none, none, none⟩], [], []⟩ 5 1
     ⟨[⟨1, .vint 1, "Toronto", "TOR", "", true, 0, 0⟩], [], [], []⟩ (by decide),
   C9_record_count_amended.2.2 "TOR" none ⟨2024, 1, 1⟩ ⟨none⟩ 5 1
     ⟨[⟨1, .vint 1, "Toronto", "TOR", "", true, 0, 0⟩], [], [], []⟩ (by decide)⟩

theorem mkTeamObj_abbreviation (pyhash : Option String → Int) (s : Standing) :
    (mkTeamObj pyhash s).abbreviation = fieldDefault s.teamAbbrev := rfl

/-- Once an abbreviation is in the seen-set, the loop never emits another
team dict carrying it. -/
theorem getTeamsLoop_filter_seen (pyhash : Option String → Int) (a : String) :
    ∀ (l : List Standing) (seen : List String), a ∈ seen →
      (getTeamsLoop pyhash l seen).filter (fun o => o.abbreviation = some a) = []
  | [], _, _ => rfl
  | s :: rest, seen, hseen => by
    cases hab : fieldDefault s.teamAbbrev with
    | none =>
      simp only [getTeamsLoop, hab]
      exact getTeamsLoop_filter_seen pyhash a rest seen hseen
    | some b =>
      simp only [getTeamsLoop, hab]
      by_cases hcond : b ≠ "" ∧ b ∉ seen
      · rw [if_pos hcond]
        have hba : ¬ b = a := fun h => hcond.2 (h ▸ hseen)
        have hobj : ¬ ((mkTeamObj pyhash s).abbreviation = some a) := by
          rw [mkTeamObj_abbreviation, hab]
          simpa using hba
        rw [List.filter_cons_of_neg (by simpa using hobj)]
        exact getTeamsLoop_filter_seen pyhash a rest (b :: seen)
          (List.mem_cons_of_mem b hseen)
      · rw [if_neg hcond]
        exact getTeamsLoop_filter_seen pyhash a rest seen hseen

/-- For an unseen truthy abbreviation, the teams the loop emits with that
abbreviation are exactly the dict built from the first standings entry
carrying it. -/
theorem getTeamsLoop_filter_unseen (pyhash : Option String → Int) (a : String)
    (ha : a ≠ "") :
    ∀ (l : List Standing) (seen : List String), a ∉ seen →
      (getTeamsLoop pyhash l seen).filter (fun o => o.abbreviation = some a) =
        (match l.find? (fun s => fieldDefault s.teamAbbrev = some a) with
         | some s => [mkTeamObj pyhash s]
         | none => [])
  | [], _, _ => rfl
  | s :: rest, seen, hseen => by
    cases hab : fieldDefault s.teamAbbrev with
    | none =>
      have hfind : List.find? (fun s => fieldDefault s.teamAbbrev = some a) (s :: rest) =
          List.find? (fun s => fieldDefault s.teamAbbrev = some a) rest := by
        rw [List.find?_cons_of_neg]
        simp [hab]
      simp only [getTeamsLoop, hab, hfind]
      exact getTeamsLoop_filter_unseen pyhash a ha rest seen hseen
    | some b =>
      by_cases hba : b = a
      · subst hba
        have hfind : List.find? (fun s => fieldDefault s.teamAbbrev = some b) (s :: rest) =
            some s := by
          rw [List.find?_cons_of_pos]
          simp [hab]
        simp only [getTeamsLoop, hab, hfind]
        rw [if_pos ⟨ha, hseen⟩]
        have hobj : (mkTeamObj pyhash s).abbreviation = some b := by
          rw [mkTeamObj_abbreviation, hab]
        rw [List.filter_cons_of_pos (by simpa using hobj),
          getTeamsLoop_filter_seen pyhash b rest (b :: seen) (List.mem_cons_self b seen)]
      · have hfind : List.find? (fun s => fieldDefault s.teamAbbrev = some a) (s :: rest) =
            List.find? (fun s => fieldDefault s.teamAbbrev = some a) rest := by
          rw [List.find?_cons_of_neg]
          simp [hab, hba]
        simp only [getTeamsLoop, hab, hfind]
        by_cases hcond : b ≠ "" ∧ b ∉ seen
        · rw [if_pos hcond]
          have hobj : ¬ ((mkTeamObj pyhash s).abbreviation = some a) := by
            rw [mkTeamObj_abbreviation, hab]
            simpa using hba
          rw [List.filter_cons_of_neg (by simpa using hobj)]
          refine getTeamsLoop_filter_unseen pyhash a ha rest (b :: seen) ?_
          intro hmem
          rcases List.mem_cons.mp hmem with h | h
          · exact hba h.symm
          · exact hseen h
        · rw [if_neg hcond]
          exact getTeamsLoop_filter_unseen pyhash a ha rest seen hseen

/-- C6: for a standings payload, `get_teams` emits at most one team dict
per (non-empty) abbreviation, and when entries share an abbreviation the
single emitted dict is built from the first such entry encountered. -/
theorem C6_standings_dedup (pyhash : Option String → Int) (l : List Standing)
    (a : String) (ha : a ≠ "") (out : List TeamObj)
    (hout : get_teams pyhash (some ⟨some l⟩) = some out) :
    (out.filter (fun o => o.abbreviation = some a)).length ≤ 1 ∧
    out.filter (fun o => o.abbreviation = some a) =
      (match l.find? (fun s => fieldDefault s.teamAbbrev = some a) with
       | some s => [mkTeamObj pyhash s]
       | none => []) := by
  have hout2 : out = getTeamsLoop pyhash l [] := by
    simpa [get_teams] using hout.symm
  have h := getTeamsLoop_filter_unseen pyhash a ha l [] (by simp)
  rw [hout2, h]
  refine ⟨?_, rfl⟩
  cases List.find? (fun s => fieldDefault s.teamAbbrev = some a) l <;> simp

/-- Witness for C6: two standings entries both tagged `TOR`; the output
contains exactly the dict built from the first one. -/
theorem C6_standings_dedup_witness :
    (([⟨.vnone, "A Team", some "TOR", none, true⟩] : List TeamObj).filter
      (fun o => o.abbreviation = some "TOR")).length ≤ 1 ∧
    ([⟨.vnone, "A Team", some "TOR", none, true⟩] : List TeamObj).filter
        (fun o => o.abbreviation = some "TOR") =
      (match ([⟨.jstr "TOR", .jobj (some "A Team"), .absent, .absent, .vnone⟩,
               ⟨.jstr "TOR", .jobj (some "B Team"), .absent, .absent, .vnone⟩] :
          List Standing).find? (fun s => fieldDefault s.teamAbbrev = some "TOR") with
       | some s => [mkTeamObj (fun _ => 0) s]
       | none => []) :=
  C6_standings_dedup (fun _ => 0)
    [⟨.jstr "TOR", .jobj (some "A Team"), .absent, .absent, .vnone⟩,
     ⟨.jstr "TOR", .jobj (some "B Team"), .absent, .absent, .vnone⟩]
    "TOR" (by decide) [⟨.vnone, "A Team", some "TOR", none, true⟩] (by decide)

/-- The ledger rows appended by one roster fetch are a function of the
teams table and the adapter outcome alone. -/
theorem roster_fetch_logs_eq (ab : String) (season : Option String)
    (api : Option RosterData) (fault : Fault) (now : Nat) (dur : Rat) (st : DMState) :
    (fetch_and_store_team_roster ab season api fault now dur st).2.logs =
      st.logs ++ rosterLogDelta st.teams ab api fault now dur := by
  cases api with
  | none => simp [fetch_and_store_team_roster, rosterLogDelta, _log_fetch]
  | some r =>
    cases hteam : findTeamByAbbr st.teams ab with
    | none => simp [fetch_and_store_team_roster, rosterLogDelta, hteam]
    | some t => cases fault <;>
        simp [fetch_and_store_team_roster, rosterLogDelta, hteam, _log_fetch]

/-- The ledger rows appended by one team-stats fetch are a function of
the teams table and the adapter outcome alone. -/
theorem stats_fetch_logs_eq (ab : String) (season : Option String) (today : PDate)
    (api : Option StatsData) (fault : Fault) (now : Nat) (dur : Rat) (st : DMState) :
    (fetch_and_store_team_stats ab season today api fault now dur st).2.logs =
      st.logs ++ statsLogDelta st.teams ab api fault now dur := by
  cases api with
  | none => simp [fetch_and_store_team_stats, statsLogDelta, _log_fetch]
  | some sd =>
    cases hteam : findTeamByAbbr st.teams ab with
    | none => simp [fetch_and_store_team_stats, statsLogDelta, hteam]
    | some t => cases fault <;>
        simp [fetch_and_store_team_stats, statsLogDelta, hteam, _log_fetch]

/-- The per-team loop of the orchestrator: every abbreviation of the list
is processed (its roster and stats fetches are attempted and their ledger
rows recorded) independently of the outcomes of the teams before it. -/
theorem fetch_loop_state (env : RunEnv) (season : Option String) (today : PDate)
    (now : Nat) (dur : Rat) (T : List TeamRow) :
    ∀ (abbrs : List String) (acc : DMState), acc.teams = T →
      (abbrs.foldl (fun acc2 ab =>
        (fetch_and_store_team_stats ab season today (env.statsApi ab)
          (env.statsFault ab) now dur
          (fetch_and_store_team_roster ab season (env.rosterApi ab)
            (env.rosterFault ab) now dur acc2).2).2) acc).teams = T ∧
      (abbrs.foldl (fun acc2 ab =>
        (fetch_and_store_team_stats ab season today (env.statsApi ab)
          (env.statsFault ab) now dur
          (fetch_and_store_team_roster ab season (env.rosterApi ab)
            (env.rosterFault ab) now dur acc2).2).2) acc).logs =
        acc.logs ++ (abbrs.map (fun ab =>
          rosterLogDelta T ab (env.rosterApi ab) (env.rosterFault ab) now dur ++
          statsLogDelta T ab (env.statsApi ab) (env.statsFault ab) now dur)).join
  | [], acc, hacc => by simpa using hacc
  | ab :: rest, acc, hacc => by
    have hteams1 : (fetch_and_store_team_roster ab season (env.rosterApi ab)
        (env.rosterFault ab) now dur acc).2.teams = T := by
      rw [roster_fetch_teams_eq]; exact hacc
    have hteams2 : (fetch_and_store_team_stats ab season today (env.statsApi ab)
        (env.statsFault ab) now dur
        (fetch_and_store_team_roster ab season (env.rosterApi ab)
          (env.rosterFault ab) now dur acc).2).2.teams = T := by
      rw [stats_fetch_teams_eq]; exact hteams1
    have ih := fetch_loop_state env season today now dur T rest _ hteams2
    refine ⟨by simpa using ih.1, ?_⟩
    rw [List.foldl_cons, ih.2, stats_fetch_logs_eq, roster_fetch_logs_eq, hteams1, hacc]
    simp [List.append_assoc]

/-- C7: once the teams step of `fetch_all_teams_data` succeeds, the run
returns `True` regardless of per-team outcomes, and every active team's
roster and stats fetches are attempted: the final ledger extends the
post-teams-step ledger by exactly the per-team entries of each listed
team in order, each team's entries being independent of the failures
(including persistence exceptions) of the teams processed before it. -/
theorem C7_partial_failure_tolerance (env : RunEnv) (season : Option String)
    (today : PDate) (now : Nat) (dur : Rat) (st : DMState)
    (h : (fetch_and_store_teams now dur env.teamsApi env.teamsFault st).1 = true) :
    (fetch_all_teams_data env season today now dur st).1 = true ∧
    (fetch_all_teams_data env season today now dur st).2.logs =
      (fetch_and_store_teams now dur env.teamsApi env.teamsFault st).2.logs ++
        ((((fetch_and_store_teams now dur env.teamsApi env.teamsFault st).2.teams.filter
            (fun t => t.active)).map (fun t => t.abbreviation)).map (fun ab =>
          rosterLogDelta (fetch_and_store_teams now dur env.teamsApi env.teamsFault st).2.teams
            ab (env.rosterApi ab) (env.rosterFault ab) now dur ++
          statsLogDelta (fetch_and_store_teams now dur env.teamsApi env.teamsFault st).2.teams
            ab (env.statsApi ab) (env.statsFault ab) now dur)).join := by
  have hloop := fetch_loop_state env season today now dur
    (fetch_and_store_teams now dur env.teamsApi env.teamsFault st).2.teams
    ((((fetch_and_store_teams now dur env.teamsApi env.teamsFault st).2.teams.filter
        (fun t => t.active)).map (fun t => t.abbreviation)))
    (fetch_and_store_teams now dur env.teamsApi env.teamsFault st).2 rfl
  constructor
  · simp [fetch_all_teams_data, h]
  · simp only [fetch_all_teams_data, h, if_true]
    exact hloop.2

/-- Witness for C7: teams fetch succeeds for two teams, the first team's
roster fetch fails, yet the second team's fetches are still attempted and
recorded and the run reports success. -/
theorem C7_partial_failure_tolerance_witness :
    (fetch_all_teams_data
      ⟨some [⟨.vint 1, some "A", none, some "AAA", none, none, none⟩,
             ⟨.vint 2, some "B", none, some "BBB", none, none, none⟩],
       .ok, fun ab => if ab = "AAA" then none else some ⟨[], [], []⟩,
       fun _ => .ok, fun _ => none, fun _ => .ok⟩
      none ⟨2024, 1, 1⟩ 1 0 ⟨[], [], [], []⟩).1 = true ∧
    (fetch_all_teams_data
      ⟨some [⟨.vint 1, some "A", none, some "AAA", none, none, none⟩,
             ⟨.vint 2, some "B", none, some "BBB", none, none, none⟩],
       .ok, fun ab => if ab = "AAA" then none else some ⟨[], [], []⟩,
       fun _ => .ok, fun _ => none, fun _ => .ok⟩
      none ⟨2024, 1, 1⟩ 1 0 ⟨[], [], [], []⟩).2.logs =
      [⟨"teams", 1, "success", 2, none, some 0⟩,
       ⟨"players", 1, "error", 0, some "No roster data for AAA", none⟩,
       ⟨"team_stats", 1, "error", 0, some "No stats for AAA", none⟩,
       ⟨"players", 1, "success", 0, none, some 0⟩,
       ⟨"team_stats", 1, "error", 0, some "No stats for BBB", none⟩] :=
  ⟨(C7_partial_failure_tolerance
      ⟨some [⟨.vint 1, some "A", none, some "AAA", none, none, none⟩,
             ⟨.vint 2, some "B", none, some "BBB", none, none, none⟩],
       .ok, fun ab => if ab = "AAA" then none else some ⟨[], [], []⟩,
       fun _ => .ok, fun _ => none, fun _ => .ok⟩
      none ⟨2024, 1, 1⟩ 1 0 ⟨[], [], [], []⟩ (by decide)).1,
   ((C7_partial_failure_tolerance
      ⟨some [⟨.vint 1, some "A", none, some "AAA", none, none, none⟩,
             ⟨.vint 2, some "B", none, some "BBB", none, none, none⟩],
       .ok, fun ab => if ab = "AAA" then none else some ⟨[], [], []⟩,
       fun _ => .ok, fun _ => none, fun _ => .ok⟩
      none ⟨2024, 1, 1⟩ 1 0 ⟨[], [], [], []⟩ (by decide)).2).trans (by decide)⟩
